import Mathlib

/-!
Verification of the DonationBox backend against its natural-language
specification.  The definitions below are shallow embeddings of the Python
sources under backend/: relational rows become structures, SQLAlchemy queries
become list computations, and the stateful GPIO/correlation pipeline becomes
explicit state passing.  Timestamps are modelled as integers (seconds);
amounts are integers (cents).
-/

namespace DonationBox

/-- Category row: categories(id, name UNIQUE) (models/category.py). -/
structure Category where
  id : Nat
  name : String
deriving Repr, DecidableEq

/-- Vote (poll) row together with its ordered category bindings: the list
models the vote_category association rows ordered by position
(models/vote.py, models/associations.py). -/
structure Vote where
  id : Nat
  question : String
  startTime : Int
  endTime : Int
  categories : List Category
deriving Repr, DecidableEq

/-- Donation row: donations(id, vote_id, category_id, amount, timestamp)
(models/donation.py; the amount column is amount_cents). -/
structure Donation where
  id : Nat
  voteId : Nat
  categoryId : Nat
  amount : Int
  timestamp : Int
deriving Repr, DecidableEq

/-- VoteRepository.get_active_by_time (repositories/vote_repository.py):
SELECT * FROM votes WHERE start_time <= now AND end_time >= now
ORDER BY id DESC LIMIT 1.  The fold returns the qualifying vote with the
largest id, mirroring ORDER BY id DESC plus first(). -/
def getActiveByTime (votes : List Vote) (now : Int) : Option Vote :=
  (votes.filter (fun v => decide (v.startTime ≤ now) && decide (now ≤ v.endTime))).foldl
    (fun acc v =>
      match acc with
      | none => some v
      | some w => if w.id < v.id then some v else some w) none

/-- A vote whose time window contains the instant now. -/
def activeWindow (v : Vote) (now : Int) : Prop :=
  v.startTime ≤ now ∧ now ≤ v.endTime

instance (v : Vote) (now : Int) : Decidable (activeWindow v now) := by
  unfold activeWindow; infer_instance

/-- Per-category aggregate line of DonationRepository.get_totals_for_vote
(repositories/donation_repository.py). -/
structure CategoryTotal where
  categoryId : Nat
  categoryName : String
  amountCents : Int
  count : Nat
deriving Repr, DecidableEq

/-- Result shape of DonationRepository.get_totals_for_vote. -/
structure VoteTotals where
  voteId : Nat
  totalAmountCents : Int
  byCategory : List CategoryTotal
deriving Repr, DecidableEq

/-- DonationRepository.get_totals_for_vote: the total counts only donations
whose category is currently bound to the vote; the per-category breakdown
lists every currently bound category in binding-position order, with zeros
when it has no donations. -/
def getTotalsForVote (vote : Vote) (donations : List Donation) : VoteTotals :=
  if vote.categories.isEmpty then
    { voteId := vote.id, totalAmountCents := 0, byCategory := [] }
  else
    let currentCategoryIds := vote.categories.map (·.id)
    let relevant := donations.filter
      (fun d => d.voteId == vote.id && currentCategoryIds.contains d.categoryId)
    let byCategory := vote.categories.map (fun c =>
      let ds := donations.filter (fun d => d.voteId == vote.id && d.categoryId == c.id)
      { categoryId := c.id
        categoryName := c.name
        amountCents := (ds.map (·.amount)).sum
        count := ds.length : CategoryTotal })
    { voteId := vote.id
      totalAmountCents := (relevant.map (·.amount)).sum
      byCategory := byCategory }

/-- Totals payload of the donation_created broadcast
(schemas/websocket.py DonationTotals; values computed as in the old
DonationService.get_totals_for_vote from get_totals_for_vote rows). -/
structure BroadcastTotals where
  totalAmountCents : Int
  totalDonations : Nat
  categoryTotals : List (Nat × Int)
deriving Repr, DecidableEq

/-- Broadcast totals assembled from the repository aggregate. -/
def broadcastTotalsOf (t : VoteTotals) : BroadcastTotals :=
  { totalAmountCents := t.totalAmountCents
    totalDonations := (t.byCategory.map (·.count)).sum
    categoryTotals := t.byCategory.map (fun c => (c.categoryId, c.amountCents)) }

/-- Outbound WebSocket envelopes (schemas/websocket.py). -/
inductive WsMessage where
  | categoryChosen (categoryId : Nat) (categoryName : String) (timestamp : Int)
  | moneyInserted (amountCents : Int) (totalAmountCents : Int) (timestamp : Int)
  | donationCreated (voteId : Nat) (categoryId : Nat) (amountCents : Int)
      (totals : BroadcastTotals) (timestamp : Int)
deriving Repr, DecidableEq

/-- True exactly on donation_created envelopes. -/
def WsMessage.isDonationCreated : WsMessage → Bool
  | .donationCreated _ _ _ _ _ => true
  | _ => false

/-- The chosen_category correlation slot stored in the StateStore by
ChooseCategoryButton: a position (0-based) and the instant it was set. -/
structure SlotCategory where
  position : Nat
  timestamp : Int
deriving Repr, DecidableEq

/-- The total_donation_cents correlation slot stored in the StateStore by
DonationCoinValidator: accumulated cents and the instant of the last update. -/
structure SlotAmount where
  amount : Int
  timestamp : Int
deriving Repr, DecidableEq

/-- In-memory pipeline state: the two StateStore correlation slots, the
persisted donation rows, the autoincrement counter for donation ids, and the
sequence of WebSocket broadcasts sent so far. -/
structure PipelineState where
  chosenCategory : Option SlotCategory
  pendingAmount : Option SlotAmount
  donations : List Donation
  nextDonationId : Nat
  broadcasts : List WsMessage
deriving Repr, DecidableEq

/-- Pulse-count to cents table of DonationCoinValidator
(gpio/components/donation_coin_validator.py): default
1 pulse = 10, 2 = 20, 3 = 50, 4 = 100, 5 = 200; dict.get default 0 otherwise. -/
def pulsToCent (pulseCount : Nat) : Int :=
  if pulseCount = 1 then 10
  else if pulseCount = 2 then 20
  else if pulseCount = 3 then 50
  else if pulseCount = 4 then 100
  else if pulseCount = 5 then 200
  else 0

/-- DonationCoinValidator.handle_coin_insertion, without the debounce-task
scheduling: read the stored total (or 0), add the pulse value, write the slot
back with a fresh timestamp, and broadcast one money_inserted envelope with
amount_cents = delta and total_amount_cents = new total. -/
def handleCoinInsertion (pulseCount : Nat) (now : Int) (s : PipelineState) : PipelineState :=
  let amountCents := pulsToCent pulseCount
  let currentTotal := (s.pendingAmount.map (·.amount)).getD 0
  let newTotal := currentTotal + amountCents
  { s with
    pendingAmount := some { amount := newTotal, timestamp := now }
    broadcasts := s.broadcasts ++ [.moneyInserted amountCents newTotal now] }

/-- TTL on each correlation slot (spec section 4.4; default 30 s). -/
def ttlSeconds : Int := 30

/-- Modelled from the spec: DonationService.process_pending_donation_from_state
is invoked by ChooseCategoryButton._try_process_donation and
DonationCoinValidator._create_donation_after_debounce, but its definition is
absent from the sources (the DonationService file present has no such method
and a different constructor than the one AppContainer.create_donation_service
calls).  Modelled from spec section 4.4 (correlation attempt, steps 1-5) and
section 4.6 (DonationWriter.commit), with totals computed by the source
get_totals_for_vote and the active poll resolved by the source
get_active_by_time. -/
def processPendingDonationFromState (votes : List Vote) (now : Int)
    (s : PipelineState) : PipelineState × Option Donation :=
  match s.chosenCategory with
  | none => (s, none)
  | some cat =>
    if now - cat.timestamp > ttlSeconds then
      ({ s with chosenCategory := none }, none)
    else
      match s.pendingAmount with
      | none => ({ s with pendingAmount := some { amount := 0, timestamp := now } }, none)
      | some amt =>
        if amt.amount ≤ 0 ∨ now - amt.timestamp > ttlSeconds then
          ({ s with pendingAmount := some { amount := 0, timestamp := now } }, none)
        else
          match getActiveByTime votes now with
          | none =>
            ({ s with
                chosenCategory := none
                pendingAmount := some { amount := 0, timestamp := now } }, none)
          | some vote =>
            match vote.categories.get? cat.position with
            | none =>
              ({ s with
                  chosenCategory := none
                  pendingAmount := some { amount := 0, timestamp := now } }, none)
            | some category =>
              let donation : Donation :=
                { id := s.nextDonationId, voteId := vote.id, categoryId := category.id
                  amount := amt.amount, timestamp := now }
              let donations := s.donations ++ [donation]
              let totals := broadcastTotalsOf (getTotalsForVote vote donations)
              ({ s with
                  donations := donations
                  nextDonationId := s.nextDonationId + 1
                  chosenCategory := none
                  pendingAmount := none
                  broadcasts := s.broadcasts ++
                    [.donationCreated vote.id category.id amt.amount totals now] },
               some donation)

/-- ChooseCategoryButton._update_category_after_debounce, run at the instant
the 2 s debounce window ends: convert the 1-based button number to a 0-based
position, write the chosen_category slot with a fresh timestamp, broadcast
category_chosen when the active vote has a binding at that position, then
attempt the donation (\_try_process_donation). -/
def updateCategoryAfterDebounce (votes : List Vote) (categoryOption : Nat) (now : Int)
    (s : PipelineState) : PipelineState :=
  let position := categoryOption - 1
  let s1 := { s with chosenCategory := some { position := position, timestamp := now } }
  let s2 :=
    match getActiveByTime votes now with
    | some vote =>
      match vote.categories.get? position with
      | some category =>
        { s1 with broadcasts := s1.broadcasts ++ [.categoryChosen category.id category.name now] }
      | none => s1
    | none => s1
  (processPendingDonationFromState votes now s2).1

/-- DonationCoinValidator._create_donation_after_debounce, run at the instant
the coin debounce window ends: attempt the donation. -/
def createDonationAfterDebounce (votes : List Vote) (now : Int)
    (s : PipelineState) : PipelineState :=
  (processPendingDonationFromState votes now s).1

/-- The poll of the happy-path scenario: bindings A(id=7) at position 0 and
B(id=9) at position 1, active over the whole scenario. -/
def happyPathVote : Vote :=
  { id := 1, question := "Which cause", startTime := 0, endTime := 100
    categories := [{ id := 7, name := "A" }, { id := 9, name := "B" }] }

/-- The poll store of the happy-path scenario. -/
def happyPathVotes : List Vote := [happyPathVote]

/-- Empty pipeline state at startup. -/
def initialPipelineState : PipelineState :=
  { chosenCategory := none, pendingAmount := none, donations := []
    nextDonationId := 1, broadcasts := [] }

/-- Happy-path run: button 1 pressed at t = 0 so its debounce fires at t = 2;
a 3-pulse coin is inserted at t = 2; the coin debounce fires at t = 4. -/
def happyPathFinal : PipelineState :=
  createDonationAfterDebounce happyPathVotes 4
    (handleCoinInsertion 3 2
      (updateCategoryAfterDebounce happyPathVotes 1 2 initialPipelineState))

/-- VotingService._build_category_mapping_by_position
(services/voting/VotingService.py): for each position i of the old binding
list, the new id is the new list entry at i, or the last new entry when the
old list is longer; an entry (old id, new id) is recorded only when the two
differ.  The Python dict is insertion-ordered and the old ids are distinct,
so an association list in position order is an exact model.  The source
indexes new_category_ids_ordered[-1], so the caller guarantees the new list
is non-empty (the 0 default is never reached from the guarded call site). -/
def buildCategoryMappingByPosition (oldCategories : List Category)
    (newCategoryIdsOrdered : List Nat) : List (Nat × Nat) :=
  oldCategories.enum.foldl
    (fun mapping iOldCat =>
      let newCatId := newCategoryIdsOrdered.getD iOldCat.1
        (newCategoryIdsOrdered.getLastD 0)
      if iOldCat.2.id ≠ newCatId then mapping ++ [(iOldCat.2.id, newCatId)] else mapping)
    []

/-- Effect of one UPDATE donations SET category_id = new WHERE vote_id = voteId
AND category_id = old, on a single row. -/
def applyCategoryUpdateElem (voteId oldCategoryId newCategoryId : Nat)
    (d : Donation) : Donation :=
  if d.voteId = voteId ∧ d.categoryId = oldCategoryId then
    { d with categoryId := newCategoryId }
  else d

/-- One bulk UPDATE of DonationRepository.reassign_categories_for_vote. -/
def applyCategoryUpdate (voteId oldCategoryId newCategoryId : Nat)
    (donations : List Donation) : List Donation :=
  donations.map (applyCategoryUpdateElem voteId oldCategoryId newCategoryId)

/-- DonationRepository.reassign_categories_for_vote
(repositories/donation_repository.py): one UPDATE per mapping entry, executed
sequentially in the mapping's (position) order, each on the result of the
previous one. -/
def reassignCategoriesForVote (voteId : Nat) (mapping : List (Nat × Nat))
    (donations : List Donation) : List Donation :=
  mapping.foldl (fun ds entry => applyCategoryUpdate voteId entry.1 entry.2 ds) donations

/-- Effect of the simultaneous substitution on a single row: rewrite by the
first mapping entry matching the row's current category, if any. -/
def simultaneousReassignElem (voteId : Nat) (mapping : List (Nat × Nat))
    (d : Donation) : Donation :=
  if d.voteId = voteId then
    match mapping.lookup d.categoryId with
    | some newCategoryId => { d with categoryId := newCategoryId }
    | none => d
  else d

/-- The claim's words, for comparison with the source behaviour: the donation
set after migration equals the simultaneous application of the per-position
old-to-new substitution to the previous donation set (each row consulted once
against the original mapping). -/
def simultaneousReassignSpec (voteId : Nat) (mapping : List (Nat × Nat))
    (donations : List Donation) : List Donation :=
  donations.map (simultaneousReassignElem voteId mapping)

/-- GPIO event record (gpio/event.py). -/
structure GPIOEvent where
  componentId : String
  eventType : String
  pulseCount : Nat := 0
  timestamp : Int := 0
deriving Repr, DecidableEq

/-- Python str.startswith on the character sequences of the two strings. -/
def strStartsWith (s pre : String) : Bool :=
  pre.data.isPrefixOf s.data

/-- Python str.split(sep) on a character sequence, for a one-character
separator. -/
def splitChars (sep : Char) : List Char → List (List Char)
  | [] => [[]]
  | c :: rest =>
    let r := splitChars sep rest
    if c = sep then [] :: r
    else
      match r with
      | [] => [[c]]
      | grp :: grps => (c :: grp) :: grps

/-- Python int(s) for a string of decimal digits; none models ValueError. -/
def charsToNat? (cs : List Char) : Option Nat :=
  if cs ≠ [] ∧ cs.all Char.isDigit then
    some (cs.foldl (fun n c => n * 10 + (c.toNat - 48)) 0)
  else none

/-- int(component_id.split(sep)[1]) of EventHandler._handle_vote_button,
where sep is the underscore; none models IndexError/ValueError. -/
def parseButtonOption (componentId : String) : Option Nat :=
  match splitChars ('_' : Char) componentId.data with
  | _ :: second :: _ => charsToNat? second
  | _ => none

/-- Decision taken by EventHandler._process_event/_handle_vote_button
(core/event_handler.py) for one event. -/
inductive DispatchAction where
  | handleVoteButton (option : Nat)
  | ignoredEventType
  | invalidComponentId
  | unknownComponent
deriving Repr, DecidableEq

/-- Routing of EventHandler._process_event (core/event_handler.py):
component ids starting with button_ go to _handle_vote_button, which acts
only on event_type pressed and parses the option from the id; every other
component id is logged as unknown and the event discarded. -/
def processEventRoute (e : GPIOEvent) : DispatchAction :=
  if strStartsWith e.componentId "button_" then
    if e.eventType ≠ "pressed" then .ignoredEventType
    else
      match parseButtonOption e.componentId with
      | some n => .handleVoteButton n
      | none => .invalidComponentId
  else .unknownComponent

/-- Component ids registered by setup_components
(gpio/components/__init__.py). -/
def setupComponentIds : List String :=
  ["category_button_1", "category_button_2", "coin_validator"]

/-- Event types declared via the event decorator by each registered component
(ChooseCategoryButton.handle_press, DonationCoinValidator.handle_coin_insertion). -/
def declaredEventTypes (componentId : String) : List String :=
  if componentId = "category_button_1" ∨ componentId = "category_button_2" then
    ["button_pressed"]
  else if componentId = "coin_validator" then
    ["coin_inserted"]
  else []

/-- Severity of a log record. -/
inductive LogLevel where
  | debug
  | warning
  | error
deriving Repr, DecidableEq

/-- State of the EventBridge / ComponentRegistry queueing side: started is
true between start() and stop() (loop and queue references present); queue is
the bounded asyncio.Queue contents in FIFO order. -/
structure BridgeState where
  started : Bool
  queue : List GPIOEvent
deriving Repr, DecidableEq

/-- Capacity of the bounded event queue (asyncio.Queue maxsize, set to 100 in
EventBridge.start and in lifespan via initialize_event_queue). -/
def queueCapacity : Nat := 100

/-- EventBridge.queue_event (gpio/bridge.py) and the identical
ComponentRegistry._queue_event (gpio/registry.py), together with the effect
of the scheduled put_nowait callback: when the bridge is not started the
event is dropped with a warning; otherwise put_nowait is scheduled on the
loop and the enqueue logs at debug; when the callback runs, a non-full queue
appends the event, while a full queue raises QueueFull inside the callback,
which the event loop's default exception handler reports at error level -
the newest event is dropped and no warning is emitted by the bridge. -/
def queueEvent (s : BridgeState) (e : GPIOEvent) :
    BridgeState × List (LogLevel × String) :=
  if !s.started then
    (s, [(.warning, "Bridge not started - dropping event")])
  else if s.queue.length < queueCapacity then
    ({ s with queue := s.queue ++ [e] }, [(.debug, "Event queued")])
  else
    (s, [(.debug, "Event queued"),
         (.error, "Exception in callback Queue.put_nowait")])

/-- A bridge whose queue holds 100 events: the next put_nowait raises
QueueFull. -/
def fullBridgeState : BridgeState :=
  { started := true
    queue := List.replicate 100 { componentId := "coin_validator", eventType := "coin_inserted" } }

/-- A connected WebSocket client; sendOk is false when send_json raises for
this client during the broadcast. -/
structure Subscriber where
  id : Nat
  sendOk : Bool
deriving Repr, DecidableEq

/-- WebSocketService.broadcast_json (services/websocket/WebSocketService.py):
copy the connection set under the lock, return early when empty, send the
envelope to each snapshot member sequentially catching every failure, collect
failing clients, and finally remove them from the connection set.  Returns
the remaining connections and the attempted (client, envelope) sends. -/
def broadcastJson (connections : List Subscriber) (envelope : WsMessage) :
    List Subscriber × List (Nat × WsMessage) :=
  let snapshot := connections
  if snapshot.isEmpty then (connections, [])
  else
    let sends := snapshot.map (fun c => (c.id, envelope))
    let disconnected := snapshot.filter (fun c => !c.sendOk)
    if disconnected.isEmpty then (connections, sends)
    else (connections.filter (fun c => !(disconnected.contains c)), sends)

/-- Errors raised by the repository layer. -/
inductive RepoError where
  | noResultFound
  | valueError
deriving Repr, DecidableEq

/-- VoteRepository.create (repositories/vote_repository.py): reject with
ValueError when start_time >= end_time, otherwise insert the vote with its
ordered category bindings; newId models the autoincrement primary key. -/
def voteRepoCreate (votes : List Vote) (newId : Nat) (question : String)
    (startTime endTime : Int) (categories : List Category) :
    Except RepoError (List Vote) :=
  if startTime ≥ endTime then .error .valueError
  else .ok (votes ++ [{ id := newId, question := question, startTime := startTime
                        endTime := endTime, categories := categories }])

/-- VoteRepository.update (repositories/vote_repository.py): NoResultFound
when the vote is absent; apply the optional new fields (category bindings
replaced wholesale, positions re-enumerated); reject with ValueError when the
resulting start_time >= end_time (the transaction is not committed, so the
store is unchanged); otherwise store the updated vote. -/
def voteRepoUpdate (votes : List Vote) (voteId : Nat) (question : Option String)
    (startTime endTime : Option Int) (categories : Option (List Category)) :
    Except RepoError (List Vote) :=
  match votes.find? (fun v => v.id == voteId) with
  | none => .error .noResultFound
  | some vote =>
    let vote' : Vote :=
      { vote with
        question := question.getD vote.question
        startTime := startTime.getD vote.startTime
        endTime := endTime.getD vote.endTime
        categories := categories.getD vote.categories }
    if vote'.startTime ≥ vote'.endTime then .error .valueError
    else .ok (votes.map (fun w => if w.id == voteId then vote' else w))

/-- A create or update request against the poll store. -/
inductive VoteOp where
  | create (newId : Nat) (question : String) (startTime endTime : Int)
      (categories : List Category)
  | update (voteId : Nat) (question : Option String) (startTime endTime : Option Int)
      (categories : Option (List Category))
deriving Repr

/-- Run one operation; a rejected operation leaves the store unchanged
(the surrounding session is rolled back, never committed). -/
def applyVoteOp (votes : List Vote) : VoteOp → List Vote
  | .create newId question startTime endTime categories =>
    match voteRepoCreate votes newId question startTime endTime categories with
    | .ok votes' => votes'
    | .error _ => votes
  | .update voteId question startTime endTime categories =>
    match voteRepoUpdate votes voteId question startTime endTime categories with
    | .ok votes' => votes'
    | .error _ => votes

/-- Run a sequence of create/update operations. -/
def applyVoteOps (votes : List Vote) (ops : List VoteOp) : List Vote :=
  ops.foldl applyVoteOp votes

/-- Persistent store seen by VotingService: polls with their bindings, the
donation rows, the category table and its autoincrement counter. -/
structure Store where
  votes : List Vote
  donations : List Donation
  allCategories : List Category
  nextCategoryId : Nat
deriving Repr, DecidableEq

/-- CategoryRepository.get_or_create: return the category with this name, or
insert a fresh one. -/
def getOrCreateCategory (st : Store) (name : String) : Store × Category :=
  match st.allCategories.find? (fun c => c.name == name) with
  | some c => (st, c)
  | none =>
    let c : Category := { id := st.nextCategoryId, name := name }
    ({ st with allCategories := st.allCategories ++ [c]
               nextCategoryId := st.nextCategoryId + 1 }, c)

/-- VotingService._resolve_categories: get_or_create each input name (the
source strips whitespace from the name first) in order. -/
def resolveCategories (st : Store) (names : List String) : Store × List Category :=
  names.foldl
    (fun acc name =>
      let next := getOrCreateCategory acc.1 name.trim
      (next.1, acc.2 ++ [next.2]))
    (st, [])

/-- Errors raised out of VotingService._update_vote_with_category_migration. -/
inductive UpdateVoteError where
  | noResultFound
  | valueError (msg : String)
deriving Repr, DecidableEq

/-- VotingService._update_vote_with_category_migration
(services/voting/VotingService.py): load the vote, resolve the new category
names, raise ValueError when they resolve to an empty id list, otherwise
build the positional mapping, migrate donations, replace the bindings via
the repository update, and commit.  The whole run is one session: an error
carries the session state as it stood at the raise (the transaction is then
rolled back, so nothing of it is committed). -/
def updateVoteWithCategoryMigrationSession (st : Store) (voteId : Nat)
    (question : Option String) (startTime endTime : Option Int)
    (categoryNames : List String) :
    Except (UpdateVoteError × Store) Store :=
  match st.votes.find? (fun v => v.id == voteId) with
  | none => .error (.noResultFound, st)
  | some oldVote =>
    let oldCategories := oldVote.categories
    let resolved := resolveCategories st categoryNames
    let st1 := resolved.1
    let newCategoryIds := resolved.2.map (·.id)
    if newCategoryIds.isEmpty then
      .error
        (.valueError "Cannot update vote with empty category set - would orphan donations",
         st1)
    else
      let mapping := buildCategoryMappingByPosition oldCategories newCategoryIds
      let st2 := { st1 with
        donations := reassignCategoriesForVote voteId mapping st1.donations }
      match voteRepoUpdate st2.votes voteId question startTime endTime (some resolved.2) with
      | .ok votes' => .ok { st2 with votes := votes' }
      | .error .noResultFound => .error (.noResultFound, st2)
      | .error .valueError =>
        .error (.valueError "start_time must be before end_time", st2)

/-- EventHandler._process_event (core/event_handler.py): each event is handled
inside its own database session created from the container's sessionmaker;
handle models the routing plus handler body acting on the session state.  On
success session.commit persists the handler's result; on an exception the
session is rolled back - the committed store is left exactly as it was - the
error is logged, re-raised, and caught by the _run loop, which continues with
the next event. -/
def processEventWithSession {DB : Type} (handle : GPIOEvent → DB → Except String DB)
    (db : DB) (e : GPIOEvent) : DB :=
  match handle e db with
  | .ok committed => committed
  | .error _ => db

/-- EventHandler._run: drain the queue, processing each event with its own
session; errors are logged and the loop continues. -/
def processEvents {DB : Type} (handle : GPIOEvent → DB → Except String DB)
    (db : DB) (events : List GPIOEvent) : DB :=
  events.foldl (processEventWithSession handle) db

/-! Theorems. -/

/-- C1: Happy path.  With an active poll whose bindings are A(id=7) at
position 0 and B(id=9) at position 1, a press of button 1 whose 2 s debounce
fires at t = 2, followed by a 3-pulse coin insertion at t = 2 whose 2 s coin
debounce fires at t = 4, commits exactly one donation of 50 cents for
category id 7 against that poll, emits exactly one donation_created
broadcast whose totals carry total_amount_cents = 50, and clears both the
chosen-category slot and the pending-amount slot. -/
theorem happy_path_donation :
    happyPathFinal.donations =
      [{ id := 1, voteId := 1, categoryId := 7, amount := 50, timestamp := 4 }] ∧
    happyPathFinal.broadcasts.filter WsMessage.isDonationCreated =
      [.donationCreated 1 7 50
        { totalAmountCents := 50, totalDonations := 1, categoryTotals := [(7, 50), (9, 0)] } 4] ∧
    happyPathFinal.chosenCategory = none ∧
    happyPathFinal.pendingAmount = none := by
  decide

/-- C5: Coin path.  On a coin_inserted event with pulse count n, the delta is
the pulse-to-cents table value (10, 20, 50, 100, 200 for 1..5 pulses and 0
for any unknown count), the pending amount becomes its previous value (or 0
when the slot is empty) plus the delta with a fresh timestamp, no donation is
written, and exactly one money_inserted broadcast is appended carrying
amount_cents = delta and total_amount_cents = the new total. -/
theorem coin_path (n : Nat) (now : Int) (s : PipelineState) :
    (handleCoinInsertion n now s).pendingAmount =
      some { amount := (s.pendingAmount.map (·.amount)).getD 0 + pulsToCent n
             timestamp := now } ∧
    (handleCoinInsertion n now s).broadcasts =
      s.broadcasts ++
        [.moneyInserted (pulsToCent n)
          ((s.pendingAmount.map (·.amount)).getD 0 + pulsToCent n) now] ∧
    (handleCoinInsertion n now s).donations = s.donations ∧
    pulsToCent 1 = 10 ∧ pulsToCent 2 = 20 ∧ pulsToCent 3 = 50 ∧
    pulsToCent 4 = 100 ∧ pulsToCent 5 = 200 ∧
    (n = 0 ∨ 5 < n → pulsToCent n = 0) := by
  refine ⟨rfl, rfl, rfl, rfl, rfl, rfl, rfl, rfl, ?_⟩
  intro h
  have h1 : n ≠ 1 := by omega
  have h2 : n ≠ 2 := by omega
  have h3 : n ≠ 3 := by omega
  have h4 : n ≠ 4 := by omega
  have h5 : n ≠ 5 := by omega
  simp [pulsToCent, h1, h2, h3, h4, h5]

/-- Witness for C5 at the unknown pulse count 7 on the empty state. -/
theorem coin_path_witness :
    (handleCoinInsertion 7 2 initialPipelineState).pendingAmount =
      some { amount := (initialPipelineState.pendingAmount.map (·.amount)).getD 0 + pulsToCent 7
             timestamp := 2 } ∧
    pulsToCent 7 = 0 :=
  ⟨(coin_path 7 2 initialPipelineState).1,
   (coin_path 7 2 initialPipelineState).2.2.2.2.2.2.2.2 (Or.inr (by decide))⟩

/-- C3: Dispatch routing.  The registered component category_button_1
declares a handler for button_pressed, yet EventHandler._process_event
discards its events as an unknown component (its routing recognises only ids
starting with button_), and likewise for the registered coin_validator and
its coin_inserted events; the only events it routes are of the form
button_N with event type pressed, which no registered component emits. -/
theorem dispatch_routing_failing_input :
    "category_button_1" ∈ setupComponentIds ∧
    "button_pressed" ∈ declaredEventTypes "category_button_1" ∧
    processEventRoute { componentId := "category_button_1", eventType := "button_pressed" } =
      .unknownComponent ∧
    "coin_validator" ∈ setupComponentIds ∧
    "coin_inserted" ∈ declaredEventTypes "coin_validator" ∧
    processEventRoute { componentId := "coin_validator", eventType := "coin_inserted" } =
      .unknownComponent ∧
    processEventRoute { componentId := "button_1", eventType := "pressed" } =
      .handleVoteButton 1 := by
  decide

/-- C2 counterexample: for a poll whose bindings change from positions
[1, 2] to [2, 3], the built mapping is [(1, 2), (2, 3)] and the sequential
UPDATEs chain - a donation at old category 1 is first rewritten to 2 and then
by the second UPDATE to 3 - so the result differs from the simultaneous
per-position substitution, which sends it to 2. -/
theorem positional_migration_counterexample :
    reassignCategoriesForVote 5
        (buildCategoryMappingByPosition
          [{ id := 1, name := "A" }, { id := 2, name := "B" }] [2, 3])
        [{ id := 1, voteId := 5, categoryId := 1, amount := 100, timestamp := 0 }] ≠
      simultaneousReassignSpec 5
        (buildCategoryMappingByPosition
          [{ id := 1, name := "A" }, { id := 2, name := "B" }] [2, 3])
        [{ id := 1, voteId := 5, categoryId := 1, amount := 100, timestamp := 0 }] := by
  decide

/-- A key that is distinct from every key of the association list looks up to
none. -/
theorem lookup_eq_none_of_forall_ne (a : Nat) (l : List (Nat × Nat))
    (h : ∀ p ∈ l, a ≠ p.1) : l.lookup a = none := by
  induction l with
  | nil => rfl
  | cons p rest ih =>
    have hne : a ≠ p.1 := h p (by simp)
    have hbeq : (a == p.1) = false := by simpa using hne
    obtain ⟨k, v⟩ := p
    simp only [List.lookup, hbeq]
    exact ih (fun q hq => h q (List.mem_cons_of_mem _ hq))

/-- One UPDATE followed by the simultaneous substitution for the remaining
entries coincides with the simultaneous substitution for all entries,
provided the value written by the UPDATE is not a key of a later entry. -/
theorem simElem_applyElem (voteId : Nat) (e : Nat × Nat) (rest : List (Nat × Nat))
    (h : ∀ p ∈ rest, e.2 ≠ p.1) (d : Donation) :
    simultaneousReassignElem voteId rest (applyCategoryUpdateElem voteId e.1 e.2 d) =
      simultaneousReassignElem voteId (e :: rest) d := by
  unfold applyCategoryUpdateElem simultaneousReassignElem
  by_cases hv : d.voteId = voteId
  · by_cases hc : d.categoryId = e.1
    · have hupd : (if d.voteId = voteId ∧ d.categoryId = e.1 then
          { d with categoryId := e.2 } else d) = { d with categoryId := e.2 } :=
        if_pos ⟨hv, hc⟩
      rw [hupd]
      have hlook : rest.lookup e.2 = none := lookup_eq_none_of_forall_ne e.2 rest h
      have hbeq : (d.categoryId == e.1) = true := by simpa using hc
      simp [hv, hlook, List.lookup, hbeq]
    · have hupd : (if d.voteId = voteId ∧ d.categoryId = e.1 then
          { d with categoryId := e.2 } else d) = d := by
        rw [if_neg]; intro hand; exact hc hand.2
      rw [hupd]
      have hbeq : (d.categoryId == e.1) = false := by simpa using hc
      simp [hv, List.lookup, hbeq]
  · have hupd : (if d.voteId = voteId ∧ d.categoryId = e.1 then
        { d with categoryId := e.2 } else d) = d := by
      rw [if_neg]; intro hand; exact hv hand.1
    rw [hupd]
    simp [hv]

/-- Sequential per-entry UPDATEs agree with the simultaneous substitution
whenever no entry writes a category id that a later entry uses as its old
id. -/
theorem reassign_eq_simultaneous_of_pairwise (voteId : Nat)
    (mapping : List (Nat × Nat)) (donations : List Donation)
    (h : mapping.Pairwise (fun a b => a.2 ≠ b.1)) :
    reassignCategoriesForVote voteId mapping donations =
      simultaneousReassignSpec voteId mapping donations := by
  induction mapping generalizing donations with
  | nil =>
    unfold reassignCategoriesForVote simultaneousReassignSpec
    simp only [List.foldl_nil]
    have hid : ∀ d ∈ donations, simultaneousReassignElem voteId [] d = id d := by
      intro d _
      unfold simultaneousReassignElem
      simp [List.lookup]
    rw [List.map_congr_left hid, List.map_id]
  | cons e rest ih =>
    rw [List.pairwise_cons] at h
    have hstep : reassignCategoriesForVote voteId (e :: rest) donations =
        reassignCategoriesForVote voteId rest
          (applyCategoryUpdate voteId e.1 e.2 donations) := rfl
    rw [hstep, ih _ h.2]
    unfold simultaneousReassignSpec applyCategoryUpdate
    rw [List.map_map]
    exact List.map_congr_left (fun d _ => simElem_applyElem voteId e rest h.1 d)

/-- C2 (amended): when a poll's bindings are replaced, the built mapping
records, in position order, each position whose old category id differs from
the new one (old positions beyond the new list mapping to the last new id),
and the donations are rewritten by one UPDATE per entry applied sequentially
in that order, atomically with the binding update; the result equals the
simultaneous per-position substitution whenever no position's new category
id reappears as the old category id of a later changed position (otherwise
later UPDATEs rewrite already-migrated rows again). -/
theorem positional_migration_amended (voteId : Nat) (oldCategories : List Category)
    (newCategoryIds : List Nat) (donations : List Donation)
    (h : (buildCategoryMappingByPosition oldCategories newCategoryIds).Pairwise
      (fun a b => a.2 ≠ b.1)) :
    reassignCategoriesForVote voteId
        (buildCategoryMappingByPosition oldCategories newCategoryIds) donations =
      simultaneousReassignSpec voteId
        (buildCategoryMappingByPosition oldCategories newCategoryIds) donations :=
  reassign_eq_simultaneous_of_pairwise voteId _ donations h

/-- Witness for the amended C2: a non-chaining binding change, id 1 to id 2
at position 0 with id 3 kept at position 1, migrates the donation set the
same way sequentially and simultaneously. -/
theorem positional_migration_amended_witness :
    reassignCategoriesForVote 5
        (buildCategoryMappingByPosition
          [{ id := 1, name := "A" }, { id := 3, name := "C" }] [2, 3])
        [{ id := 1, voteId := 5, categoryId := 1, amount := 100, timestamp := 0 }] =
      simultaneousReassignSpec 5
        (buildCategoryMappingByPosition
          [{ id := 1, name := "A" }, { id := 3, name := "C" }] [2, 3])
        [{ id := 1, voteId := 5, categoryId := 1, amount := 100, timestamp := 0 }] :=
  positional_migration_amended 5
    [{ id := 1, name := "A" }, { id := 3, name := "C" }] [2, 3]
    [{ id := 1, voteId := 5, categoryId := 1, amount := 100, timestamp := 0 }]
    (by decide)

/-- The ORDER BY id DESC LIMIT 1 fold: a returned vote is drawn from the list
(or is the accumulator), its id dominates every list element's id, and it
dominates the accumulator's id. -/
theorem pickFold_some (l : List Vote) : ∀ (acc : Option Vote) (v : Vote),
    l.foldl (fun a w =>
      match a with
      | none => some w
      | some u => if u.id < w.id then some w else some u) acc = some v →
    (v ∈ l ∨ acc = some v) ∧ (∀ w ∈ l, w.id ≤ v.id) ∧
      (∀ u, acc = some u → u.id ≤ v.id) := by
  induction l with
  | nil =>
    intro acc v hv
    simp only [List.foldl_nil] at hv
    refine ⟨Or.inr hv, by simp, ?_⟩
    intro u hu
    rw [hv] at hu
    cases hu
    exact Nat.le_refl _
  | cons a l ih =>
    intro acc v hv
    simp only [List.foldl_cons] at hv
    cases acc with
    | none =>
      obtain ⟨hmem, hbound, hacc⟩ := ih _ v hv
      have ha : a.id ≤ v.id := hacc a rfl
      refine ⟨?_, ?_, ?_⟩
      · rcases hmem with hm | hm
        · exact Or.inl (List.mem_cons_of_mem a hm)
        · cases hm
          exact Or.inl (List.mem_cons_self a l)
      · intro w hw
        rcases List.mem_cons.mp hw with hw | hw
        · cases hw; exact ha
        · exact hbound w hw
      · intro u hu
        cases hu
    | some w0 =>
      dsimp only at hv
      by_cases hlt : w0.id < a.id
      · rw [if_pos hlt] at hv
        obtain ⟨hmem, hbound, hacc⟩ := ih _ v hv
        have ha : a.id ≤ v.id := hacc a rfl
        refine ⟨?_, ?_, ?_⟩
        · rcases hmem with hm | hm
          · exact Or.inl (List.mem_cons_of_mem a hm)
          · cases hm
            exact Or.inl (List.mem_cons_self a l)
        · intro w hw
          rcases List.mem_cons.mp hw with hw | hw
          · cases hw; exact ha
          · exact hbound w hw
        · intro u hu
          cases hu
          exact Nat.le_trans (Nat.le_of_lt hlt) ha
      · rw [if_neg hlt] at hv
        obtain ⟨hmem, hbound, hacc⟩ := ih _ v hv
        have hw0 : w0.id ≤ v.id := hacc w0 rfl
        refine ⟨?_, ?_, ?_⟩
        · rcases hmem with hm | hm
          · exact Or.inl (List.mem_cons_of_mem a hm)
          · exact Or.inr hm
        · intro w hw
          rcases List.mem_cons.mp hw with hw | hw
          · cases hw
            exact Nat.le_trans (Nat.le_of_not_lt hlt) hw0
          · exact hbound w hw
        · exact hacc

/-- The fold returns none exactly when it starts from none and sees no
element. -/
theorem pickFold_none (l : List Vote) : ∀ (acc : Option Vote),
    l.foldl (fun a w =>
      match a with
      | none => some w
      | some u => if u.id < w.id then some w else some u) acc = none ↔
    (acc = none ∧ l = []) := by
  induction l with
  | nil => intro acc; simp
  | cons a l ih =>
    intro acc
    simp only [List.foldl_cons]
    constructor
    · intro h
      exfalso
      obtain ⟨h1, _⟩ := (ih _).mp h
      cases acc with
      | none => cases h1
      | some w0 =>
        dsimp only at h1
        by_cases hlt : w0.id < a.id
        · rw [if_pos hlt] at h1; cases h1
        · rw [if_neg hlt] at h1; cases h1
    · rintro ⟨_, h2⟩
      cases h2

/-- C4: Active-poll lookup.  A vote returned by get_active_by_time for the
instant at is stored, its inclusive window start_time <= at <= end_time
contains the instant, and its id dominates every stored vote whose window
contains the instant; none is returned exactly when no stored vote's window
contains the instant. -/
theorem active_poll_lookup (votes : List Vote) (at_ : Int) :
    (∀ v, getActiveByTime votes at_ = some v →
      v ∈ votes ∧ activeWindow v at_ ∧
        ∀ w ∈ votes, activeWindow w at_ → w.id ≤ v.id) ∧
    (getActiveByTime votes at_ = none ↔ ∀ w ∈ votes, ¬ activeWindow w at_) := by
  constructor
  · intro v hv
    unfold getActiveByTime at hv
    obtain ⟨hmem, hbound, _⟩ := pickFold_some _ _ v hv
    have hmem' : v ∈ votes.filter
        (fun v => decide (v.startTime ≤ at_) && decide (at_ ≤ v.endTime)) := by
      rcases hmem with hm | hm
      · exact hm
      · cases hm
    rw [List.mem_filter] at hmem'
    refine ⟨hmem'.1, ?_, ?_⟩
    · have := hmem'.2
      simp only [Bool.and_eq_true, decide_eq_true_eq] at this
      exact this
    · intro w hw hwin
      apply hbound
      rw [List.mem_filter]
      refine ⟨hw, ?_⟩
      simp only [Bool.and_eq_true, decide_eq_true_eq]
      exact hwin
  · unfold getActiveByTime
    rw [pickFold_none]
    simp only [true_and, List.filter_eq_nil_iff, Bool.and_eq_true, decide_eq_true_eq]
    constructor
    · intro h w hw hwin
      exact h w hw ⟨hwin.1, hwin.2⟩
    · intro h w hw hwin
      exact h w hw ⟨hwin.1, hwin.2⟩

/-- Witness for C4: at t = 5 both stored votes are in window and the one with
the larger id, 2, wins. -/
theorem active_poll_lookup_witness :
    ({ id := 2, question := "q2", startTime := 0, endTime := 10, categories := [] } : Vote) ∈
      [({ id := 1, question := "q1", startTime := 0, endTime := 10, categories := [] } : Vote),
       { id := 2, question := "q2", startTime := 0, endTime := 10, categories := [] }] ∧
    activeWindow { id := 2, question := "q2", startTime := 0, endTime := 10, categories := [] } 5 ∧
    ∀ w ∈ [({ id := 1, question := "q1", startTime := 0, endTime := 10, categories := [] } : Vote),
           { id := 2, question := "q2", startTime := 0, endTime := 10, categories := [] }],
      activeWindow w 5 →
        w.id ≤ ({ id := 2, question := "q2", startTime := 0, endTime := 10,
                  categories := [] } : Vote).id :=
  (active_poll_lookup
    [{ id := 1, question := "q1", startTime := 0, endTime := 10, categories := [] },
     { id := 2, question := "q2", startTime := 0, endTime := 10, categories := [] }] 5).1
    { id := 2, question := "q2", startTime := 0, endTime := 10, categories := [] }
    (by decide)

/-- C6 counterexample: with the bridge started and the bounded queue holding
100 events, enqueueing one more leaves the bridge state unchanged - the
newest event is dropped - but the enqueue path emits no warning-level log
record, contradicting the claim that the full-queue drop logs a warning. -/
theorem bridge_enqueue_full_counterexample :
    (queueEvent fullBridgeState { componentId := "coin_validator", eventType := "coin_inserted" }).1 =
      fullBridgeState ∧
    ((queueEvent fullBridgeState
        { componentId := "coin_validator", eventType := "coin_inserted" }).2.filter
      (fun l => l.1 == LogLevel.warning)) = [] := by
  decide

/-- C6 (amended): enqueue is a total function of the bridge state - it never
raises to the calling thread.  Before start (or after stop) the event is
dropped with a warning; with the bridge started and the bounded queue
(capacity 100) not full the event is appended in FIFO order with a debug
record; with the queue full the newest event is dropped, the failure
surfacing through the scheduled put_nowait raising inside the loop callback
(reported at error level by the loop), with no warning logged by the
bridge. -/
theorem bridge_enqueue_amended (s : BridgeState) (e : GPIOEvent) :
    (s.started = false →
      queueEvent s e = (s, [(.warning, "Bridge not started - dropping event")])) ∧
    (s.started = true → s.queue.length < queueCapacity →
      queueEvent s e = ({ s with queue := s.queue ++ [e] }, [(.debug, "Event queued")])) ∧
    (s.started = true → queueCapacity ≤ s.queue.length →
      (queueEvent s e).1 = s ∧
      ((queueEvent s e).2.filter (fun l => l.1 == LogLevel.warning)) = []) := by
  refine ⟨?_, ?_, ?_⟩
  · intro h
    unfold queueEvent
    rw [h]
    rfl
  · intro h1 h2
    unfold queueEvent
    rw [h1]
    simp only [Bool.not_true, Bool.false_eq_true, if_false]
    rw [if_pos h2]
  · intro h1 h2
    unfold queueEvent
    rw [h1]
    simp only [Bool.not_true, Bool.false_eq_true, if_false]
    rw [if_neg (Nat.not_lt.mpr h2)]
    exact ⟨rfl, rfl⟩

/-- Witness for C6 at a not-yet-started bridge. -/
theorem bridge_enqueue_amended_witness :
    queueEvent { started := false, queue := [] }
        { componentId := "category_button_1", eventType := "button_pressed" } =
      ({ started := false, queue := [] },
       [(.warning, "Bridge not started - dropping event")]) :=
  (bridge_enqueue_amended { started := false, queue := [] }
    { componentId := "category_button_1", eventType := "button_pressed" }).1 rfl

/-- C7: Broadcast fan-out.  broadcast_json attempts one send of the envelope
to every member of the snapshot of the subscriber set taken at the start of
the call, in order, and the surviving subscriber set is exactly the snapshot
minus every subscriber whose send raised; the operation is a total function,
so no send failure propagates to the caller. -/
theorem broadcast_fanout (connections : List Subscriber) (envelope : WsMessage) :
    (broadcastJson connections envelope).1 = connections.filter (·.sendOk) ∧
    (broadcastJson connections envelope).2 = connections.map (fun c => (c.id, envelope)) := by
  unfold broadcastJson
  cases connections with
  | nil => exact ⟨rfl, rfl⟩
  | cons a l =>
    simp only [List.isEmpty_cons, Bool.false_eq_true, if_false]
    by_cases hd : ((a :: l).filter (fun c => !c.sendOk)).isEmpty
    · rw [if_pos hd]
      refine ⟨?_, rfl⟩
      rw [List.isEmpty_iff, List.filter_eq_nil_iff] at hd
      symm
      rw [List.filter_eq_self]
      intro c hc
      have := hd c hc
      simpa using this
    · rw [if_neg hd]
      refine ⟨?_, rfl⟩
      apply List.filter_congr
      intro c hc
      cases hcs : c.sendOk with
      | true =>
        have hnotmem : c ∉ (a :: l).filter (fun c => !c.sendOk) := by
          intro hmem
          rw [List.mem_filter] at hmem
          rw [hcs] at hmem
          simp at hmem
        simp [List.elem_iff, hnotmem]
      | false =>
        have hmem : c ∈ (a :: l).filter (fun c => !c.sendOk) := by
          rw [List.mem_filter]
          exact ⟨hc, by rw [hcs]; rfl⟩
        simp [List.elem_iff, hmem]

/-- One create or update preserves the window invariant: a rejected request
(ValueError or NoResultFound) leaves the store unchanged, and an accepted one
only stores votes with start_time < end_time. -/
theorem applyVoteOp_preserves (votes : List Vote) (op : VoteOp)
    (h : ∀ v ∈ votes, v.startTime < v.endTime) :
    ∀ v ∈ applyVoteOp votes op, v.startTime < v.endTime := by
  cases op with
  | create newId question startTime endTime categories =>
    intro v hv
    unfold applyVoteOp voteRepoCreate at hv
    dsimp only at hv
    by_cases hle : startTime ≥ endTime
    · rw [if_pos hle] at hv
      exact h v hv
    · rw [if_neg hle] at hv
      dsimp only at hv
      rcases List.mem_append.mp hv with hm | hm
      · exact h v hm
      · rcases List.mem_singleton.mp hm with rfl
        exact Int.lt_of_not_ge hle
  | update voteId question startTime endTime categories =>
    intro v hv
    unfold applyVoteOp voteRepoUpdate at hv
    dsimp only at hv
    cases hfind : votes.find? (fun v => v.id == voteId) with
    | none =>
      rw [hfind] at hv
      exact h v hv
    | some vote =>
      rw [hfind] at hv
      dsimp only at hv
      by_cases hle : (startTime.getD vote.startTime) ≥ (endTime.getD vote.endTime)
      · rw [if_pos hle] at hv
        exact h v hv
      · rw [if_neg hle] at hv
        dsimp only at hv
        rcases List.mem_map.mp hv with ⟨w, hw, hweq⟩
        by_cases hid : (w.id == voteId) = true
        · rw [if_pos hid] at hweq
          rw [← hweq]
          exact Int.lt_of_not_ge hle
        · rw [if_neg hid] at hweq
          rw [← hweq]
          exact h w hw

/-- C8: Poll time-window invariant.  Starting from a store in which every
vote satisfies start_time < end_time, any sequence of create and update
requests preserves the invariant: a request whose resulting times would
violate it is rejected with ValueError and leaves the store unchanged, so no
stored poll ever has start_time >= end_time. -/
theorem poll_window_invariant (votes : List Vote) (ops : List VoteOp)
    (h : ∀ v ∈ votes, v.startTime < v.endTime) :
    ∀ v ∈ applyVoteOps votes ops, v.startTime < v.endTime := by
  induction ops generalizing votes with
  | nil => exact h
  | cons op ops ih =>
    exact ih (applyVoteOp votes op) (applyVoteOp_preserves votes op h)

/-- Witness for C8: from the empty store, one valid create followed by an
update that would invert the window; the stored vote keeps 0 < 10. -/
theorem poll_window_invariant_witness :
    ({ id := 1, question := "q", startTime := 0, endTime := 10,
       categories := [] } : Vote).startTime <
      ({ id := 1, question := "q", startTime := 0, endTime := 10,
         categories := [] } : Vote).endTime :=
  poll_window_invariant []
    [VoteOp.create 1 "q" 0 10 [], VoteOp.update 1 none (some 20) none none]
    (by simp)
    { id := 1, question := "q", startTime := 0, endTime := 10, categories := [] }
    (by decide)

/-- C9: update_vote with an empty category set.  When the vote exists and the
categories argument resolves to an empty id list, the service raises
ValueError with the session exactly as it was given - no category creation,
no donation migration and no binding change has happened at the raise, so the
poll, its bindings and its donations are unchanged (and the surrounding
transaction commits nothing). -/
theorem update_vote_empty_categories (st : Store) (voteId : Nat)
    (question : Option String) (startTime endTime : Option Int)
    (h : ∃ v ∈ st.votes, v.id = voteId) :
    updateVoteWithCategoryMigrationSession st voteId question startTime endTime [] =
      .error
        (.valueError "Cannot update vote with empty category set - would orphan donations",
         st) := by
  obtain ⟨v, hv, hvid⟩ := h
  have hfind : (st.votes.find? (fun v => v.id == voteId)).isSome := by
    rw [List.find?_isSome]
    exact ⟨v, hv, by simpa using hvid⟩
  obtain ⟨w, hw⟩ := Option.isSome_iff_exists.mp hfind
  unfold updateVoteWithCategoryMigrationSession
  rw [hw]
  rfl

/-- Witness for C9 on a one-poll store with one binding and one donation. -/
theorem update_vote_empty_categories_witness :
    updateVoteWithCategoryMigrationSession
        { votes := [{ id := 1, question := "q", startTime := 0, endTime := 10,
                      categories := [{ id := 7, name := "A" }] }]
          donations := [{ id := 1, voteId := 1, categoryId := 7, amount := 50, timestamp := 2 }]
          allCategories := [{ id := 7, name := "A" }]
          nextCategoryId := 8 } 1 none none none [] =
      .error
        (.valueError "Cannot update vote with empty category set - would orphan donations",
         { votes := [{ id := 1, question := "q", startTime := 0, endTime := 10,
                       categories := [{ id := 7, name := "A" }] }]
           donations := [{ id := 1, voteId := 1, categoryId := 7, amount := 50, timestamp := 2 }]
           allCategories := [{ id := 7, name := "A" }]
           nextCategoryId := 8 }) :=
  update_vote_empty_categories
    { votes := [{ id := 1, question := "q", startTime := 0, endTime := 10,
                  categories := [{ id := 7, name := "A" }] }]
      donations := [{ id := 1, voteId := 1, categoryId := 7, amount := 50, timestamp := 2 }]
      allCategories := [{ id := 7, name := "A" }]
      nextCategoryId := 8 } 1 none none none (by decide)

/-- C10: Per-event sessions.  Each event is handled in its own session over
the committed store: a handler that raises rolls its session back, leaving
the committed store exactly as before the event, while a successful handler
commits its result; the loop then continues with the next event against the
committed store, so one event's changes reach another event only through a
commit, never through a shared session - in particular any property of the
committed store that every successful handler preserves holds after any
sequence of events, failures included. -/
theorem event_session_isolation {DB : Type}
    (handle : GPIOEvent → DB → Except String DB) (db : DB) (e : GPIOEvent)
    (es : List GPIOEvent) :
    (∀ msg, handle e db = .error msg → processEventWithSession handle db e = db) ∧
    (∀ db', handle e db = .ok db' → processEventWithSession handle db e = db') ∧
    processEvents handle db (e :: es) =
      processEvents handle (processEventWithSession handle db e) es ∧
    (∀ P : DB → Prop, P db →
      (∀ d d' ev, P d → handle ev d = .ok d' → P d') →
      P (processEvents handle db (e :: es))) := by
  refine ⟨?_, ?_, rfl, ?_⟩
  · intro msg hmsg
    unfold processEventWithSession
    rw [hmsg]
  · intro db' hok
    unfold processEventWithSession
    rw [hok]
  · intro P hP hpres
    have aux : ∀ (l : List GPIOEvent) (d : DB), P d → P (processEvents handle d l) := by
      intro l
      induction l with
      | nil => intro d hd; exact hd
      | cons ev l ih =>
        intro d hd
        have hstep : P (processEventWithSession handle d ev) := by
          unfold processEventWithSession
          cases hcall : handle ev d with
          | ok d' => exact hpres d d' ev hd hcall
          | error m => exact hd
        exact ih _ hstep
    exact aux (e :: es) db hP

/-- Witness for C10: a handler that fails on store 0 leaves the store at 0. -/
theorem event_session_isolation_witness :
    processEventWithSession
        (fun (_ : GPIOEvent) (n : Nat) => if n = 0 then Except.error "boom" else Except.ok (n + 1))
        0 { componentId := "category_button_1", eventType := "button_pressed" } = 0 :=
  (event_session_isolation
    (fun (_ : GPIOEvent) (n : Nat) => if n = 0 then Except.error "boom" else Except.ok (n + 1))
    0 { componentId := "category_button_1", eventType := "button_pressed" } []).1 "boom" rfl

end DonationBox
